import Mathlib

/-!
Shallow embedding of the `job` package (`group.go`): a bounded-time concurrent
task runner.  Pure data (tasks, results, the group record, pre-flight
validation) is translated directly; the concurrency of one execution is
embedded as a step-parametrised semantics: the nondeterministic scheduling
facts a real run resolves (when `ctx.Done()` became visible to each worker's
two `select` statements, whether the collector had already closed the internal
channel, which case the runtime picked when several were ready, the global
serialization order of the workers' sends) are collected in explicit
schedule records, and every theorem quantifies over the feasible schedules.
-/

set_option maxHeartbeats 1000000

namespace Job

/-- Payload of a task (`interface{}` in the source): `none` models `nil`. -/
abbrev Value := Option Nat

/-- A Go `error` value: `none` models `nil`, `some s` an error with message `s`. -/
abbrev GoErr := Option String

/-- `Result` from group.go: the (value, error) pair produced by one task. -/
structure Result where
  value : Value
  error : GoErr
deriving DecidableEq

/-- `GroupResult` from group.go: the terminal outcome of one execution
(`Results` is `nil`/empty unless collection is enabled, `Error` is set only by
pre-flight validation). -/
structure GroupResult where
  Results : List Result
  Error : GoErr
deriving DecidableEq

/-- Observable behaviour of one call to a task's `Execute()`: return a
(value, error) pair, panic (carrying the `fmt.Sprintf` rendering of the panic
value and the `debug.Stack()` text), or never return. -/
inductive ExecBehavior where
  | ok (value : Value) (err : GoErr)
  | panics (msg : String) (stack : String)
  | diverges
deriving DecidableEq

/-- A task (`Tasker` in group.go): its `Execute` behaviour plus whether the
dynamic capability query `t.(TaskTimeout)` succeeds, i.e. whether the task
also implements `TimeoutHandler`.  `Tasker` itself carries no name. -/
structure Task where
  exec : ExecBehavior
  hasTimeout : Bool
deriving DecidableEq

/-- `Group` from group.go, restricted to the fields one execution reads.  The
mutex and wait-group are operational and are represented by the schedule
semantics below; the optional parent context is modeled only as present or
absent, since no claim depends on parent cancellation timing. -/
structure Group where
  name : String
  tasks : List Task
  timeout : Int
  collectResult : Bool
  ctx : Option Unit
deriving DecidableEq

/-- `isTimeout` from group.go: `tg.timeout > 0`. -/
def Group.isTimeout (g : Group) : Bool :=
  g.timeout > 0

/-- `check` from group.go: pre-flight validation run before any worker is
launched. -/
def Group.check (g : Group) : Option String :=
  if g.tasks.length = 0 then some "no tasks to execute"
  else if g.collectResult && !g.isTimeout then some "no timeout set for result collection"
  else none

/-- `Reset` from group.go: clears the task list and the context linkage. -/
def Group.Reset (g : Group) : Group :=
  { g with tasks := [], ctx := none }

/-- `AddTasks` from group.go: appends tasks under the mutex. -/
def Group.AddTasks (g : Group) (ts : List Task) : Group :=
  { g with tasks := g.tasks ++ ts }

/-- The byte scan in the worker's recover block: `bytes.IndexByte(stack, nl)`
followed by reslicing past the first newline. -/
def dropThroughNewline : List Char → Option (List Char)
  | [] => none
  | c :: cs => if c = '\n' then some cs else dropThroughNewline cs

/-- The stack trimming in the worker's recover block: drop everything up to
and including the first newline (the goroutine header line); unchanged when
the text has no newline (`IndexByte` returns a negative index). -/
def trimStack (s : String) : String :=
  match dropThroughNewline s.data with
  | some rest => String.mk rest
  | none => s

/-- One call to `Logger.Error` as issued by the worker's recover block: the
fixed message, the stringified panic value, and the data map entries
`name` (the group's name), `i` (the task index) and `stack`. -/
structure LogEntry where
  message : String
  err : String
  name : String
  i : Nat
  stack : String
deriving DecidableEq

/-- Observable actions of one worker goroutine, in program order. -/
inductive WorkerEvent where
  | sent (r : Result)
  | timeoutHandler (value : Value) (err : GoErr)
  | panicLogged (e : LogEntry)
  | wgDone
deriving DecidableEq

/-- Scheduling facts a real run resolves for one worker's `select`
statements: whether `ctx.Done()` was ready when the outer select ran, whether
it was ready when the inner select committed, whether the collector had
already closed `retChan` by that commit, and which case the runtime picked
when both inner cases were ready (Go picks uniformly at random among ready
cases). -/
structure WorkerSched where
  ctxDoneAtOuter : Bool
  ctxDoneAtInner : Bool
  chanClosedAtInner : Bool
  innerPickDone : Bool
deriving DecidableEq

/-- Feasible worker schedules: the context's done signal is monotonic (ready
at the outer select implies still ready at the inner one), and `collectResults`
closes `retChan` only after `ctx.Done()` fired or after every worker —
including this one — already finished, so a close observed before this
worker's inner select implies the done signal had fired. -/
def WorkerSched.feasible (s : WorkerSched) : Prop :=
  (s.ctxDoneAtOuter = true → s.ctxDoneAtInner = true) ∧
  (s.chanClosedAtInner = true → s.ctxDoneAtInner = true)

instance (s : WorkerSched) : Decidable s.feasible := by
  unfold WorkerSched.feasible
  infer_instance

/-- Where the two `select` statements route a normally-returned result.  The
send case of the inner select is always ready: `retChan` is buffered with
capacity `len(tasks)` and each worker sends at most once, so the buffer is
never full — but a send chosen after the collector closed the channel is the
runtime fault "send on closed channel".  The outer select has only
`ctx.Done()` and `default`, so its non-default case is taken exactly when the
done signal is ready there. -/
inductive Route where
  | sent
  | timedOut
  | sendClosed
deriving DecidableEq

/-- The routing decision of the worker's selects under schedule `s`. -/
def selectRoute (s : WorkerSched) : Route :=
  if s.ctxDoneAtOuter then Route.timedOut
  else if s.ctxDoneAtInner && s.innerPickDone then Route.timedOut
  else if s.chanClosedAtInner then Route.sendClosed
  else Route.sent

/-- Stack text recorded when the recovered panic is the runtime's
"send on closed channel" fault raised at the inner select; its exact contents
are runtime-dependent and no claim depends on them. -/
def closedSendStack : String := "goroutine running chansend"

/-- One worker goroutine from `run` in group.go, as the list of its
observable events in program order: recover-and-log on a panic, the select
routing on a normal return, the `TimeoutHandler` call on the timeout path,
and the deferred `wg.Done()` — which runs after the recover block and is
missing only for a task that never returns. -/
def runWorker (gname : String) (i : Nat) (t : Task) (s : WorkerSched) : List WorkerEvent :=
  match t.exec with
  | ExecBehavior.diverges => []
  | ExecBehavior.panics msg stack =>
      [WorkerEvent.panicLogged ⟨"task run error", msg, gname, i, trimStack stack⟩,
       WorkerEvent.wgDone]
  | ExecBehavior.ok v e =>
      (match selectRoute s with
        | Route.sent => [WorkerEvent.sent ⟨v, e⟩]
        | Route.timedOut =>
            if t.hasTimeout then [WorkerEvent.timeoutHandler v e] else []
        | Route.sendClosed =>
            [WorkerEvent.panicLogged
              ⟨"task run error", "send on closed channel", gname, i, trimStack closedSendStack⟩])
      ++ [WorkerEvent.wgDone]

/-- The entry a worker leaves in `retChan`, if any. -/
def sentOf (t : Task) (s : WorkerSched) : Option Result :=
  match t.exec with
  | ExecBehavior.ok v e => if selectRoute s = Route.sent then some ⟨v, e⟩ else none
  | _ => none

/-- Global schedule of one run: one worker schedule per task, plus the order
in which the workers' select commitments were serialized — a permutation of
the task indices.  `retChan` is FIFO, so the successful sends sit in the
buffer in this order. -/
structure RunSched where
  workers : List WorkerSched
  order : List Nat
deriving DecidableEq

/-- Feasible run schedules for a group: one worker schedule per task, each
feasible, and a serialization order that is a permutation of the indices. -/
def RunSched.feasible (g : Group) (sc : RunSched) : Prop :=
  sc.workers.length = g.tasks.length ∧
  (∀ s ∈ sc.workers, s.feasible) ∧
  List.Perm sc.order (List.range g.tasks.length)

instance (g : Group) (sc : RunSched) : Decidable (sc.feasible g) := by
  unfold RunSched.feasible
  infer_instance

/-- The `retChan` entry contributed by task index `i` under the run
schedule, if it sent one. -/
def chanSendOf (g : Group) (sc : RunSched) (i : Nat) : Option Result :=
  match g.tasks[i]?, sc.workers[i]? with
  | some t, some s => sentOf t s
  | _, _ => none

/-- `collectResults` from group.go: wait for `ctx.Done()` or `done` —
guaranteed to end, see `Group.ctxDoneFires` — then close `retChan`, return
`nil` when collection is off, and otherwise drain the buffer in FIFO (send)
order. -/
def Group.collectResults (g : Group) (sc : RunSched) : List Result :=
  if !g.collectResult then []
  else sc.order.filterMap (chanSendOf g sc)

/-- The run's cancellation signal always eventually fires once the workers
are launched: `takeContext` arms a deadline timer when `timeout > 0`, and
otherwise `ExecChan` calls `cancel()` right after `run` launches the workers.
This is what lets `collectResults` stop waiting regardless of task
behaviour. -/
def Group.ctxDoneFires (g : Group) : Bool :=
  if g.isTimeout then true else true

/-- Observable trace of one `ExecChan` call: the `GroupResult`s sent on the
returned one-shot channel, whether that channel was closed, how many workers
were launched, whether the engine called `cancel()` immediately after the
launch (the no-deadline mode), and the workers' events tagged by task
index. -/
structure ExecTrace where
  chanSends : List GroupResult
  chanClosed : Bool
  workersLaunched : Nat
  cancelledImmediately : Bool
  events : List (Nat × WorkerEvent)
deriving DecidableEq

/-- All worker events of a run, tagged by task index. -/
def allEvents (g : Group) (sc : RunSched) : List (Nat × WorkerEvent) :=
  (List.range g.tasks.length).flatMap fun i =>
    match g.tasks[i]?, sc.workers[i]? with
    | some t, some s => (runWorker g.name i t s).map (fun ev => (i, ev))
    | _, _ => []

/-- `ExecChan` from group.go.  On validation failure the error outcome is
sent on the fresh one-element channel and the channel is returned without
being closed; no worker is launched.  Otherwise the context is derived, the
workers launched, `cancel()` is called immediately when no deadline is set,
the collector runs, and the delivery goroutine sends the single outcome and
then (deferred) closes the channel. -/
def Group.ExecChan (g : Group) (sc : RunSched) : ExecTrace :=
  match g.check with
  | some err =>
      { chanSends := [⟨[], some err⟩]
        chanClosed := false
        workersLaunched := 0
        cancelledImmediately := false
        events := [] }
  | none =>
      { chanSends := [⟨g.collectResults sc, none⟩]
        chanClosed := true
        workersLaunched := g.tasks.length
        cancelledImmediately := !g.isTimeout
        events := allEvents g sc }

/-- `Execute` from group.go: receive once from the `ExecChan` channel and
unwrap the outcome. -/
def Group.Execute (g : Group) (sc : RunSched) : List Result × GoErr :=
  match (g.ExecChan sc).chanSends with
  | gr :: _ => (gr.Results, gr.Error)
  | [] => ([], none)

/-! Concrete fixtures used by counterexamples and witnesses. -/

/-- A group with an empty task list (fails pre-flight validation). -/
def gEmpty : Group :=
  { name := "g", tasks := [], timeout := 1, collectResult := false, ctx := none }

/-- The (empty) run schedule of `gEmpty`. -/
def scEmpty : RunSched :=
  { workers := [], order := [] }

/-- A worker schedule in which nothing contended: the context was never seen
fired and the channel never seen closed. -/
def schedQuiet : WorkerSched :=
  { ctxDoneAtOuter := false, ctxDoneAtInner := false
    chanClosedAtInner := false, innerPickDone := false }

/-- A worker schedule realizing a tie in the inner race: the deadline fired
after the outer check but before the inner select committed, and the runtime
pick fell on the (always ready) channel send. -/
def raceTie : WorkerSched :=
  { ctxDoneAtOuter := false, ctxDoneAtInner := true
    chanClosedAtInner := false, innerPickDone := false }

/-- A worker schedule in which the collector closed `retChan` between the
worker's outer check and its inner select commit, and the runtime pick fell
on the send case. -/
def schedLateClose : WorkerSched :=
  { ctxDoneAtOuter := false, ctxDoneAtInner := true
    chanClosedAtInner := true, innerPickDone := false }

/-- A task returning value 1 with nil error, implementing `TaskTimeout`. -/
def taskOk1 : Task :=
  { exec := ExecBehavior.ok (some 1) none, hasTimeout := true }

/-- A task whose `Execute` never returns. -/
def taskLoop : Task :=
  { exec := ExecBehavior.diverges, hasTimeout := true }

/-- A panicking task that implements `TaskTimeout`. -/
def taskPanicA : Task :=
  { exec := ExecBehavior.panics "boom" "goroutine 1\ntrace", hasTimeout := true }

/-- A task with the same panic behaviour as `taskPanicA` but without the
`TaskTimeout` capability — a distinct task. -/
def taskPanicB : Task :=
  { exec := ExecBehavior.panics "boom" "goroutine 1\ntrace", hasTimeout := false }

/-- A no-deadline, no-collection group of five never-returning tasks. -/
def gAsync : Group :=
  { name := "bg", tasks := [taskLoop, taskLoop, taskLoop, taskLoop, taskLoop]
    timeout := 0, collectResult := false, ctx := none }

/-- A quiet schedule for the five workers of `gAsync`. -/
def scAsync : RunSched :=
  { workers := [schedQuiet, schedQuiet, schedQuiet, schedQuiet, schedQuiet]
    order := [0, 1, 2, 3, 4] }

/-- A deadline group with collection off, one diverging and one panicking
task. -/
def gNoCollect : Group :=
  { name := "nc", tasks := [taskLoop, taskPanicA], timeout := 3
    collectResult := false, ctx := none }

/-- A schedule for `gNoCollect` serializing worker 1 first. -/
def scNoCollect : RunSched :=
  { workers := [schedQuiet, schedQuiet], order := [1, 0] }

/-- A task returning value 7 with nil error, no timeout capability. -/
def taskOk7 : Task :=
  { exec := ExecBehavior.ok (some 7) none, hasTimeout := false }

/-- A collecting group with one panicking and one successful task. -/
def gPanicRun : Group :=
  { name := "g", tasks := [taskPanicA, taskOk7], timeout := 5
    collectResult := true, ctx := none }

/-- A quiet schedule for the two workers of `gPanicRun`. -/
def scPanicRun : RunSched :=
  { workers := [schedQuiet, schedQuiet], order := [0, 1] }

/-- A task returning value 1. -/
def taskVal1 : Task :=
  { exec := ExecBehavior.ok (some 1) none, hasTimeout := false }

/-- A task returning value 2. -/
def taskVal2 : Task :=
  { exec := ExecBehavior.ok (some 2) none, hasTimeout := false }

/-- A collecting group with two successful tasks. -/
def gTwo : Group :=
  { name := "two", tasks := [taskVal1, taskVal2], timeout := 9
    collectResult := true, ctx := none }

/-- A schedule for `gTwo` in which worker 1 completed and sent first. -/
def scSwap : RunSched :=
  { workers := [schedQuiet, schedQuiet], order := [1, 0] }

/-- A `TaskTimeout`-capable task returning value 3. -/
def taskTimeoutCap : Task :=
  { exec := ExecBehavior.ok (some 3) none, hasTimeout := true }

/-- A no-deadline, no-collection group with one timeout-capable task. -/
def gNoDeadline : Group :=
  { name := "nd", tasks := [taskTimeoutCap], timeout := 0
    collectResult := false, ctx := none }

/-- A schedule for `gNoDeadline` in which the worker reached its select
before the immediate `cancel()` was visible. -/
def scFastWorker : RunSched :=
  { workers := [schedQuiet], order := [0] }

/-- A schedule for `gNoDeadline` in which the worker observed the cancelled
context at its outer check. -/
def scSlowWorker : RunSched :=
  { workers := [⟨true, true, false, false⟩], order := [0] }

/-! Helper lemmas about pre-flight validation. -/

/-- `check` reports an error exactly for an empty task list or for result
collection enabled without a positive deadline. -/
lemma check_ne_none_iff (g : Group) :
    g.check ≠ none ↔
      (g.tasks = [] ∨ (g.collectResult = true ∧ g.isTimeout = false)) := by
  unfold Group.check
  split_ifs with h1 h2
  · simp [List.length_eq_zero.mp h1]
  · simp only [ne_eq, reduceCtorEq, not_false_eq_true, true_iff]
    simp only [Bool.and_eq_true, Bool.not_eq_true'] at h2
    exact Or.inr h2
  · constructor
    · intro h; exact absurd rfl h
    · rintro (h | ⟨hc, ht⟩)
      · exact absurd (by simp [h]) h1
      · exact absurd (by simp [hc, ht]) h2

/-- A run that passes validation with no deadline necessarily has collection
disabled. -/
lemma collect_false_of_check (g : Group) (hc : g.check = none)
    (ht : g.isTimeout = false) : g.collectResult = false := by
  by_contra h
  have : g.check ≠ none :=
    (check_ne_none_iff g).mpr (Or.inr ⟨by simpa using h, ht⟩)
  exact this hc

/-! Claim theorems. -/

/-- C1 counterexample: executing a group that fails pre-flight validation
(empty task list) sends exactly one `GroupResult` on the returned channel but
never closes the channel — `close(ch)` is only deferred in the success-path
goroutine, and the validation path returns the channel open. -/
theorem C1_validation_channel_not_closed :
    (gEmpty.ExecChan scEmpty).chanSends.length = 1 ∧
    (gEmpty.ExecChan scEmpty).chanClosed = false := by
  decide

/-- C1 (amended): every execution sends exactly one `GroupResult` on the
one-shot channel, and the channel is closed after that single send exactly
when pre-flight validation passed; on validation failure the single error
outcome is sent but the channel is returned without being closed. -/
theorem C1_exactly_one_send (g : Group) (sc : RunSched) :
    (g.ExecChan sc).chanSends.length = 1 ∧
    ((g.ExecChan sc).chanClosed = true ↔ g.check = none) := by
  cases hc : g.check <;> simp [Group.ExecChan, hc]

/-- C3 counterexample: a feasible schedule in which, at the worker's
send/deadline race (the inner select), both the channel send and the fired
deadline signal are ready simultaneously and the runtime's pick routes the
result to the channel: the deadline does not win this tie, so the result is
collected rather than handed to the timeout handler. -/
theorem C3_tie_can_collect :
    raceTie.feasible ∧ raceTie.ctxDoneAtInner = true ∧
    selectRoute raceTie = Route.sent := by
  decide

/-- C3 (amended): the worker first checks the deadline signal sequentially
and non-blockingly (an outer select with a default case): if the signal has
already fired there, the timeout path is taken even though the send is ready,
so ties at this check go to the deadline.  Only then is the channel send
raced against the deadline signal, and in that race simultaneous readiness is
resolved by the runtime's arbitrary pick — the deadline wins the race only
when the pick falls on it. -/
theorem C3_route_characterization (s : WorkerSched) (hs : s.feasible) :
    (s.ctxDoneAtOuter = true → selectRoute s = Route.timedOut) ∧
    (s.ctxDoneAtOuter = false → s.ctxDoneAtInner = true → s.innerPickDone = true →
      selectRoute s = Route.timedOut) ∧
    (s.ctxDoneAtOuter = false → s.ctxDoneAtInner = false →
      selectRoute s = Route.sent) ∧
    (s.ctxDoneAtOuter = false → s.ctxDoneAtInner = true → s.innerPickDone = false →
      s.chanClosedAtInner = false → selectRoute s = Route.sent) := by
  obtain ⟨h1, h2⟩ := hs
  refine ⟨?_, ?_, ?_, ?_⟩ <;> intros <;> simp_all [selectRoute]

/-- C3 witness: the amended characterization applied at a concrete schedule
in which the deadline had fired by the outer check. -/
theorem C3_route_witness :
    WorkerSched.feasible ⟨true, true, false, false⟩ ∧
    selectRoute ⟨true, true, false, false⟩ = Route.timedOut :=
  ⟨by decide, (C3_route_characterization ⟨true, true, false, false⟩ (by decide)).1 rfl⟩

/-- C5: a worker that passed the deadline pre-check can commit to the race
only after the collector has closed `retChan`; since the deadline has fired,
both race cases are ready, and when the runtime pick falls on the send case
the worker attempts a send on the closed channel — the runtime fault
"send on closed channel", which the recover block logs as a task fault — so
the code does not ensure that no send is attempted after the close. -/
theorem C5_send_after_close :
    schedLateClose.feasible ∧
    selectRoute schedLateClose = Route.sendClosed ∧
    runWorker "g" 0 taskOk1 schedLateClose =
      [WorkerEvent.panicLogged
        ⟨"task run error", "send on closed channel", "g", 0, trimStack closedSendStack⟩,
       WorkerEvent.wgDone] := by
  decide

/-- C2: an execution's top-level error is non-nil exactly when pre-flight
validation fails (empty task list, or collection enabled without a positive
deadline); in that case the outcome carries empty results and no worker is
launched, and otherwise the top-level error is nil and every collected entry
is the (value, error) pair returned by some task's own `Execute`. -/
theorem C2_validation_iff (g : Group) (sc : RunSched) :
    (((g.Execute sc).2 ≠ none) ↔
      (g.tasks = [] ∨ (g.collectResult = true ∧ g.isTimeout = false))) ∧
    (g.check ≠ none →
      (g.Execute sc).1 = [] ∧ (g.ExecChan sc).workersLaunched = 0) ∧
    (g.check = none →
      (g.Execute sc).2 = none ∧
      ∀ r ∈ (g.Execute sc).1,
        ∃ (i : Nat) (t : Task),
          g.tasks[i]? = some t ∧ t.exec = ExecBehavior.ok r.value r.error) := by
  refine ⟨?_, ?_, ?_⟩
  · rw [← check_ne_none_iff g]
    cases hc : g.check <;> simp [Group.Execute, Group.ExecChan, hc]
  · intro h
    cases hc : g.check with
    | none => exact absurd hc h
    | some err =>
        exact ⟨by simp [Group.Execute, Group.ExecChan, hc],
               by simp [Group.ExecChan, hc]⟩
  · intro hc
    refine ⟨by simp [Group.Execute, Group.ExecChan, hc], ?_⟩
    intro r hr
    simp only [Group.Execute, Group.ExecChan, hc] at hr
    unfold Group.collectResults at hr
    cases hcol : g.collectResult with
    | false => simp [hcol] at hr
    | true =>
        simp only [hcol, Bool.not_true, Bool.false_eq_true, if_false] at hr
        rcases List.mem_filterMap.mp hr with ⟨i, _hi, hsend⟩
        cases ht : g.tasks[i]? with
        | none => simp [chanSendOf, ht] at hsend
        | some t =>
            cases hw : sc.workers[i]? with
            | none => simp [chanSendOf, ht, hw] at hsend
            | some s =>
                simp only [chanSendOf, ht, hw] at hsend
                cases hexec : t.exec with
                | ok v e =>
                    refine ⟨i, t, ht, ?_⟩
                    simp only [sentOf, hexec] at hsend
                    by_cases hroute : selectRoute s = Route.sent
                    · rw [if_pos hroute] at hsend
                      cases hsendv : r with
                      | mk rv re =>
                          rw [hsendv] at hsend
                          injection hsend with hs1
                          injection hs1 with hv he
                          simp [hexec, hv, he]
                    · rw [if_neg hroute] at hsend
                      exact absurd hsend (by simp)
                | panics m st => simp [sentOf, hexec] at hsend
                | diverges => simp [sentOf, hexec] at hsend

/-- C2 witness: the theorem applied at the empty group (validation fails,
error non-nil, no results, no workers) and at a passing two-task group. -/
theorem C2_witness :
    ((gEmpty.Execute scEmpty).2 ≠ none) ∧
    (gEmpty.Execute scEmpty).1 = [] ∧
    (gEmpty.ExecChan scEmpty).workersLaunched = 0 :=
  ⟨(C2_validation_iff gEmpty scEmpty).1.mpr (Or.inl rfl),
   (C2_validation_iff gEmpty scEmpty).2.1 (by decide)⟩

/-- C6: when no deadline is configured and pre-flight validation passes (so
collection is necessarily off, see C2), the engine cancels the run's context
immediately after launching all the workers, and the single delivered outcome
has an empty result sequence and a nil error — independent of the tasks,
which may still be running. -/
theorem C6_no_deadline_async (g : Group) (sc : RunSched)
    (ht : g.isTimeout = false) (hc : g.check = none) :
    (g.ExecChan sc).cancelledImmediately = true ∧
    (g.ExecChan sc).workersLaunched = g.tasks.length ∧
    (g.ExecChan sc).chanSends = [⟨[], none⟩] ∧
    (g.ExecChan sc).chanClosed = true := by
  have hcol := collect_false_of_check g hc ht
  refine ⟨?_, ?_, ?_, ?_⟩ <;>
    simp [Group.ExecChan, hc, Group.collectResults, hcol, ht]

/-- C6 witness: five never-returning tasks, no deadline, collection off — the
outcome is still the immediate empty/nil delivery with the context cancelled
right after launch. -/
theorem C6_witness :
    (gAsync.ExecChan scAsync).cancelledImmediately = true ∧
    (gAsync.ExecChan scAsync).chanSends = [⟨[], none⟩] :=
  ⟨(C6_no_deadline_async gAsync scAsync (by decide) (by decide)).1,
   (C6_no_deadline_async gAsync scAsync (by decide) (by decide)).2.2.1⟩

/-- C7: with collection disabled the delivered result sequence is empty for
every schedule and every task behaviour (success, failure, panic, or a task
that never returns), exactly one outcome is delivered, and the done signal
the collector waits on is guaranteed to fire, so no task can block the run's
termination. -/
theorem C7_no_collect_empty (g : Group) (sc : RunSched)
    (hcol : g.collectResult = false) :
    (g.Execute sc).1 = [] ∧
    (g.ExecChan sc).chanSends.length = 1 ∧
    g.ctxDoneFires = true := by
  refine ⟨?_, ?_, ?_⟩
  · cases hc : g.check <;>
      simp [Group.Execute, Group.ExecChan, hc, Group.collectResults, hcol]
  · cases hc : g.check <;> simp [Group.ExecChan, hc]
  · simp [Group.ctxDoneFires]

/-- C7 witness: collection off with one never-returning and one panicking
task — the outcome is still a single delivery with an empty result
sequence. -/
theorem C7_witness :
    (gNoCollect.Execute scNoCollect).1 = [] ∧
    (gNoCollect.ExecChan scNoCollect).chanSends.length = 1 :=
  ⟨(C7_no_collect_empty gNoCollect scNoCollect rfl).1,
   (C7_no_collect_empty gNoCollect scNoCollect rfl).2.1⟩

/-- C9: executing a group right after `Reset`, without adding new tasks,
fails the empty-task-set validation: the single outcome carries the
"no tasks to execute" error and no worker is launched. -/
theorem C9_reset_roundtrip (g : Group) (sc : RunSched) :
    ((g.Reset).ExecChan sc).chanSends = [⟨[], some "no tasks to execute"⟩] ∧
    ((g.Reset).ExecChan sc).workersLaunched = 0 := by
  constructor <;> simp [Group.Reset, Group.ExecChan, Group.check]

/-- C4 counterexample: two distinct tasks produce identical worker behaviour
— in particular the same single log entry — when they panic: the entry
carries only the fixed message, the panic value, the group name, the index
and the stack, and tasks have no name (`Tasker` is just `Execute`), so the
entry cannot contain a task name. -/
theorem C4_log_has_no_task_name :
    taskPanicA ≠ taskPanicB ∧
    runWorker "g" 0 taskPanicA schedQuiet = runWorker "g" 0 taskPanicB schedQuiet ∧
    runWorker "g" 0 taskPanicA schedQuiet =
      [WorkerEvent.panicLogged ⟨"task run error", "boom", "g", 0, "trace"⟩,
       WorkerEvent.wgDone] := by
  decide

/-- C4 (amended): a panicking task's worker emits exactly one log entry —
message "task run error", the rendered panic value, the group name, the task
index and the first-line-trimmed fault stack; no task name exists to log —
plus exactly one `wg.Done`; it sends nothing, the group still delivers its
single outcome and closes the channel, and every sibling's sent result still
reaches the collected outcome. -/
theorem C4_panic_isolated (g : Group) (sc : RunSched) (i : Nat) (t : Task)
    (s : WorkerSched) (msg stack : String)
    (_ht : g.tasks[i]? = some t) (_hw : sc.workers[i]? = some s)
    (hexec : t.exec = ExecBehavior.panics msg stack) :
    runWorker g.name i t s =
      [WorkerEvent.panicLogged ⟨"task run error", msg, g.name, i, trimStack stack⟩,
       WorkerEvent.wgDone] ∧
    sentOf t s = none ∧
    (g.check = none →
      (g.ExecChan sc).chanSends.length = 1 ∧ (g.ExecChan sc).chanClosed = true) ∧
    (g.check = none → g.collectResult = true → RunSched.feasible g sc →
      ∀ (j : Nat) (t' : Task) (s' : WorkerSched) (r : Result),
        j ≠ i → g.tasks[j]? = some t' → sc.workers[j]? = some s' →
        sentOf t' s' = some r → r ∈ (g.Execute sc).1) := by
  refine ⟨by simp [runWorker, hexec], by simp [sentOf, hexec], ?_, ?_⟩
  · intro hc
    exact ⟨by simp [Group.ExecChan, hc], by simp [Group.ExecChan, hc]⟩
  · intro hc hcol hfeas j t' s' r _hj htj hsj hr
    have hjlt : j < g.tasks.length := by
      rcases List.getElem?_eq_some.mp htj with ⟨h, _⟩
      exact h
    have hmem : j ∈ sc.order :=
      (hfeas.2.2.mem_iff).mpr (List.mem_range.mpr hjlt)
    have hin : r ∈ sc.order.filterMap (chanSendOf g sc) :=
      List.mem_filterMap.mpr ⟨j, hmem, by simp [chanSendOf, htj, hsj, hr]⟩
    simpa [Group.Execute, Group.ExecChan, hc, Group.collectResults, hcol] using hin

/-- C4 witness: the theorem applied at a concrete collecting run with a
panicking task at index 0 and a successful sibling at index 1. -/
theorem C4_panic_witness :
    runWorker gPanicRun.name 0 taskPanicA schedQuiet =
      [WorkerEvent.panicLogged
        ⟨"task run error", "boom", gPanicRun.name, 0, trimStack "goroutine 1\ntrace"⟩,
       WorkerEvent.wgDone] ∧
    (⟨some 7, none⟩ : Result) ∈ (gPanicRun.Execute scPanicRun).1 :=
  ⟨(C4_panic_isolated gPanicRun scPanicRun 0 taskPanicA schedQuiet "boom" "goroutine 1\ntrace"
      (by decide) (by decide) rfl).1,
   (C4_panic_isolated gPanicRun scPanicRun 0 taskPanicA schedQuiet "boom" "goroutine 1\ntrace"
      (by decide) (by decide) rfl).2.2.2 (by decide) rfl (by decide) 1 taskOk7 schedQuiet
      ⟨some 7, none⟩ (by decide) (by decide) (by decide) (by decide)⟩

/-- C8: with collection enabled and validation passed, the delivered sequence
is exactly the workers' successful sends drained in FIFO send/completion
order (the schedule's serialization of the indices), and each task index
occurs exactly once in that serialization, so each task contributes at most
one result; moreover there is a run whose delivered order differs from the
task submission (index) order. -/
theorem C8_completion_order :
    (∀ (g : Group) (sc : RunSched), RunSched.feasible g sc →
      g.collectResult = true → g.check = none →
      (g.Execute sc).1 = sc.order.filterMap (chanSendOf g sc) ∧
      ∀ i < g.tasks.length, sc.order.count i = 1) ∧
    (∃ (g : Group) (sc : RunSched), RunSched.feasible g sc ∧
      g.collectResult = true ∧ g.check = none ∧
      (g.Execute sc).1 ≠ (List.range g.tasks.length).filterMap (chanSendOf g sc)) := by
  constructor
  · intro g sc hfeas hcol hc
    constructor
    · simp [Group.Execute, Group.ExecChan, hc, Group.collectResults, hcol]
    · intro i hi
      rw [hfeas.2.2.count_eq]
      exact List.count_eq_one_of_mem (List.nodup_range _) (List.mem_range.mpr hi)
  · exact ⟨gTwo, scSwap, by decide, rfl, by decide, by decide⟩

/-- C8 witness: the theorem applied at the two-task run whose schedule
serialized worker 1 before worker 0 — the delivered order is the completion
order, not the submission order. -/
theorem C8_witness :
    (gTwo.Execute scSwap).1 = [⟨some 2, none⟩, ⟨some 1, none⟩] := by
  have h := (C8_completion_order.1 gTwo scSwap (by decide) rfl (by decide)).1
  rw [h]
  decide

/-- C10 counterexample: in a no-deadline run a worker can reach its select
before the engine's immediate `cancel()` is visible; its result is sent to
`retChan` (and discarded, collection being off) and its `TimeoutHandler` is
never invoked, although the task implements `TaskTimeout`. -/
theorem C10_handler_can_be_skipped :
    gNoDeadline.isTimeout = false ∧
    gNoDeadline.check = none ∧
    RunSched.feasible gNoDeadline scFastWorker ∧
    taskTimeoutCap.hasTimeout = true ∧
    (gNoDeadline.ExecChan scFastWorker).events =
      [(0, WorkerEvent.sent ⟨some 3, none⟩), (0, WorkerEvent.wgDone)] := by
  decide

/-- C10 (amended): in a validated no-deadline run, a `TaskTimeout` task whose
worker observes the already-cancelled context — at its outer check, or by the
inner race pick falling on the done signal — has its `TimeoutHandler` invoked
with its own returned (value, error) and sends nothing; and in every case the
delivered result sequence is empty, collection being necessarily off. -/
theorem C10_no_deadline_timeout_path (g : Group) (sc : RunSched) (i : Nat)
    (t : Task) (s : WorkerSched) (v : Value) (e : GoErr)
    (htime : g.isTimeout = false) (hc : g.check = none)
    (_ht : g.tasks[i]? = some t) (_hw : sc.workers[i]? = some s)
    (hexec : t.exec = ExecBehavior.ok v e) (hcap : t.hasTimeout = true) :
    ((s.ctxDoneAtOuter = true ∨ (s.ctxDoneAtInner = true ∧ s.innerPickDone = true)) →
      runWorker g.name i t s = [WorkerEvent.timeoutHandler v e, WorkerEvent.wgDone] ∧
      sentOf t s = none) ∧
    (g.Execute sc).1 = [] := by
  have hcol := collect_false_of_check g hc htime
  constructor
  · intro hobs
    have hroute : selectRoute s = Route.timedOut := by
      rcases hobs with h | ⟨h1, h2⟩
      · simp [selectRoute, h]
      · cases ho : s.ctxDoneAtOuter with
        | true => simp [selectRoute, ho]
        | false => simp [selectRoute, ho, h1, h2]
    exact ⟨by simp [runWorker, hexec, hroute, hcap], by simp [sentOf, hexec, hroute]⟩
  · simp [Group.Execute, Group.ExecChan, hc, Group.collectResults, hcol]

/-- C10 witness: the amended theorem applied at the one-task no-deadline
group under the schedule in which the worker observed the cancellation. -/
theorem C10_witness :
    runWorker gNoDeadline.name 0 taskTimeoutCap ⟨true, true, false, false⟩ =
      [WorkerEvent.timeoutHandler (some 3) none, WorkerEvent.wgDone] ∧
    (gNoDeadline.Execute scSlowWorker).1 = [] :=
  ⟨((C10_no_deadline_timeout_path gNoDeadline scSlowWorker 0 taskTimeoutCap
      ⟨true, true, false, false⟩ (some 3) none (by decide) (by decide) (by decide)
      (by decide) rfl rfl).1 (Or.inl rfl)).1,
   (C10_no_deadline_timeout_path gNoDeadline scSlowWorker 0 taskTimeoutCap
      ⟨true, true, false, false⟩ (some 3) none (by decide) (by decide) (by decide)
      (by decide) rfl rfl).2⟩

end Job
